import Mathlib

/-
Verification of the decision-engine core of the Quantum-Swarm-Heating script
(quantum_swarm_heating/qsh_script.py): the thermal-loss model, the tariff-rate
resolver, the rate-feed JSON acceptance logic, the wind-chill factor and the
hot-water gating computed per tick.

Modelling conventions:
* Python floats are modelled as exact rationals (ℚ) for the loss model, the
  tariff resolver and the hot-water gate, whose formulas are field arithmetic;
  the wind-chill factor uses ℝ because the source raises the wind speed to the
  power 0.16 (a transcendental real power).
* Python dicts are association lists; `dict.get(k, d)` is lookup-with-default.
* Timestamps are rationals: `datetime.fromisoformat` composed with comparison
  is an order embedding of ISO-8601 instants into the time line, so a rate
  interval is a triple (start, end, price) of rationals.
* Python exceptions are modelled with `Except Unit`: the `try/except` block of
  `parse_rates_array` catches every exception, so the function itself is total.
-/

namespace QSH

/-- Association-list lookup with a default value, modelling Python
`dict.get(key, default)`. -/
def getD (l : List (String × ℚ)) (k : String) (d : ℚ) : ℚ :=
  (l.lookup k).getD d

/-- The zone-geometry part of `HOUSE_CONFIG`: the `rooms` table (name → floor
area, m²) and the `facings` table (name → facing factor). -/
structure HouseConfig where
  rooms : List (String × ℚ)
  facings : List (String × ℚ)

/-- `HOUSE_CONFIG['fallback_rates']`: the named-tier fallback price table. -/
def fallback_rates : List (String × ℚ) :=
  [("cheap", 0.1495), ("standard", 0.3048), ("peak", 0.4572), ("export", 0.15)]

/-- The concrete `HOUSE_CONFIG` zone tables of the script (13 zones). -/
def houseConfig : HouseConfig :=
  ⟨[("lounge", 19.48), ("open_plan_ground", 42.14), ("utility", 3.40),
    ("cloaks", 2.51), ("bed1", 18.17), ("bed2", 13.59), ("bed3", 11.07),
    ("bed4", 9.79), ("bathroom", 6.02), ("ensuite1", 6.38), ("ensuite2", 3.71),
    ("hall", 9.15), ("landing", 10.09)],
   [("lounge", 0.2), ("open_plan_ground", 1.0), ("utility", 0.5),
    ("cloaks", 0.5), ("bed1", 0.2), ("bed2", 1.0), ("bed3", 0.5),
    ("bed4", 0.5), ("bathroom", 0.2), ("ensuite1", 0.5), ("ensuite2", 1.0),
    ("hall", 0.2), ("landing", 0.2)]⟩

/-- `calc_room_loss(config, room, delta_temp, chill_factor=1.0)`:
`area * max(0, delta_temp) * facing * chill_factor / 10` with
`area = config['rooms'].get(room, 0)` and
`facing = config['facings'].get(room, 1.0)`. -/
def calc_room_loss (config : HouseConfig) (room : String)
    (delta_temp chill_factor : ℚ) : ℚ :=
  let area := getD config.rooms room 0
  let facing := getD config.facings room 1
  area * max 0 delta_temp * facing * chill_factor / 10

/-- `total_loss(config, ext_temp, target_temp=21.0, chill_factor=1.0)`:
the sum of `calc_room_loss` over all rooms of the config, all at the same
`delta = target_temp - ext_temp`. -/
def total_loss (config : HouseConfig) (ext_temp target_temp chill_factor : ℚ) : ℚ :=
  let delta := target_temp - ext_temp
  (config.rooms.map (fun p => calc_room_loss config p.1 delta chill_factor)).sum

/-- `get_current_rate(rates)`: scan the rate intervals in order and return
`price / 100` for the first half-open interval `[start, end)` containing `now`;
if none matches fall back to `HOUSE_CONFIG['fallback_rates']['standard']`
(the key is present in the table, so the Python indexing cannot fail). -/
def get_current_rate (rates : List (ℚ × ℚ × ℚ)) (now : ℚ) : ℚ :=
  match rates with
  | [] => (fallback_rates.lookup "standard").getD 0
  | (s, e, p) :: rest =>
    if s ≤ now ∧ now < e then p / 100 else get_current_rate rest now

/-- JSON values, the possible results of `json.loads` (and the shape of a
rate-feed payload passed through directly as a Python object). -/
inductive Json where
  | null : Json
  | bool (b : Bool) : Json
  | num (q : ℚ) : Json
  | str (s : String) : Json
  | arr (items : List Json) : Json
  | obj (fields : List (String × Json)) : Json

/-- `r['start']` etc. on a decoded JSON value: succeeds only when `r` is an
object carrying the key; otherwise Python raises (TypeError / KeyError). -/
def Json.index (j : Json) (k : String) : Except Unit Json :=
  match j with
  | .obj fields =>
    match fields.lookup k with
    | some v => .ok v
    | none => .error ()
  | _ => .error ()

/-- `(r['start'], r['end'], r['value_inc_vat'])` for one schedule entry:
the body of the list comprehension in `parse_rates_array`. -/
def extractEntry (r : Json) : Except Unit (Json × Json × Json) :=
  match r.index "start", r.index "end", r.index "value_inc_vat" with
  | .ok s, .ok e, .ok v => .ok (s, e, v)
  | _, _, _ => .error ()

/-- The list comprehension of `parse_rates_array`, left to right: the first
entry whose field access raises aborts the whole comprehension. -/
def extractEntries : List Json → Except Unit (List (Json × Json × Json))
  | [] => .ok []
  | r :: rest =>
    match extractEntry r with
    | .error e => .error e
    | .ok t =>
      match extractEntries rest with
      | .error e => .error e
      | .ok ts => .ok (t :: ts)

/-- `rates.get('rates', [])` followed by the comprehension: a non-object
payload has no `.get` (AttributeError); a missing `rates` key defaults to the
empty list; a `rates` field that is not a list of well-keyed entries makes the
comprehension raise (its elements, if any, fail the field accesses). -/
def extractRates (v : Json) : Except Unit (List (Json × Json × Json)) :=
  match v with
  | .obj fields =>
    match fields.lookup "rates" with
    | none => .ok []
    | some (.arr items) => extractEntries items
    | some _ => .error ()
  | _ => .error ()

/-- The raw argument of `parse_rates_array`: Python `None`, a string that
`json.loads` rejects, or a successfully decoded JSON value. -/
inductive RawInput where
  | none : RawInput
  | badText : RawInput
  | parsed (v : Json) : RawInput

/-- `parse_rates_array(rates_str)`: `None` short-circuits to `[]`; everything
else runs under `try/except Exception`, so any decode or extraction failure is
caught and also yields `[]`. -/
def parse_rates_array (raw : RawInput) : List (Json × Json × Json) :=
  match raw with
  | .none => []
  | .badText => []
  | .parsed v =>
    match extractRates v with
    | .ok l => l
    | .error _ => []

/-- An entry is well-keyed when it is an object carrying all three fields the
comprehension reads. -/
def hasEntryKeys : Json → Bool
  | .obj fields =>
    (fields.lookup "start").isSome && (fields.lookup "end").isSome &&
      (fields.lookup "value_inc_vat").isSome
  | _ => false

/-- The expected shape of a decoded rate-feed payload: an object whose
`rates` field, when present, is a list of well-keyed entries. -/
def expectedShape : Json → Bool
  | .obj fields =>
    match fields.lookup "rates" with
    | none => true
    | some (.arr items) => items.all hasEntryKeys
    | some _ => false
  | _ => false

/-- A malformed raw input: `None`, undecodable text, or a decoded value that
does not have the expected payload shape. -/
def malformedInput : RawInput → Prop
  | .none => True
  | .badText => True
  | .parsed v => expectedShape v = false

/-- A concrete well-formed schedule entry (interval `[0, 1)`, price 25). -/
def goodEntry : Json :=
  Json.obj [("start", Json.num 0), ("end", Json.num 1), ("value_inc_vat", Json.num 25)]

/-- The per-tick wind-chill factor computed in `sim_step` (target temperature
hard-coded to 21.0): above 5 km/h the standard wind-chill approximation gives
an effective temperature, and the factor is
`1 + max(0, ext_temp - effective_temp) / max(1, 21 - ext_temp)`;
at or below 5 km/h the factor stays 1.0. -/
noncomputable def chill_factor (ext_temp wind_speed : ℝ) : ℝ :=
  if 5 < wind_speed then
    1 + max 0 (ext_temp -
        (13.12 + 0.6215 * ext_temp - 11.37 * wind_speed ^ (0.16 : ℝ)
          + 0.3965 * ext_temp * wind_speed ^ (0.16 : ℝ)))
      / max 1 (21 - ext_temp)
  else 1

/-- `hp_water_night` from `sim_step`: 1 when the user tonight flag is on, the
outdoor temperature strictly exceeds the cold-weather threshold, and the
current hour lies in `[cycle_start_hour, cycle_end_hour)`; else 0. -/
def hp_water_night (hp_chosen : Bool) (ext_temp ext_threshold : ℚ)
    (cycle_start_hour cycle_end_hour current_hour : ℕ) : ℕ :=
  if hp_chosen = true ∧ ext_threshold < ext_temp ∧
      cycle_start_hour ≤ current_hour ∧ current_hour < cycle_end_hour
  then 1 else 0

/-- C1: for a room configured with area A and facing factor F, the per-zone
loss is `A * max(0, deltaT) * F * C / 10`, and with the default chill factor
1.0 it is `A * max(0, deltaT) * F / 10`. -/
theorem calc_room_loss_formula (config : HouseConfig) (room : String)
    (A F dT C : ℚ)
    (hA : config.rooms.lookup room = some A)
    (hF : config.facings.lookup room = some F) :
    calc_room_loss config room dT C = A * max 0 dT * F * C / 10 ∧
      calc_room_loss config room dT 1 = A * max 0 dT * F / 10 := by
  unfold calc_room_loss getD
  rw [hA, hF]
  simp [mul_one]

/-- Witness for C1 at the configured lounge zone (area 19.48, facing 0.2). -/
theorem calc_room_loss_formula_witness :
    houseConfig.rooms.lookup "lounge" = some (19.48 : ℚ) ∧
      houseConfig.facings.lookup "lounge" = some (0.2 : ℚ) ∧
      calc_room_loss houseConfig "lounge" 10 2 = 19.48 * max 0 10 * 0.2 * 2 / 10 ∧
      calc_room_loss houseConfig "lounge" 10 1 = 19.48 * max 0 10 * 0.2 / 10 :=
  ⟨rfl, rfl,
    (calc_room_loss_formula houseConfig "lounge" 19.48 0.2 10 2 rfl rfl).1,
    (calc_room_loss_formula houseConfig "lounge" 19.48 0.2 10 1 rfl rfl).2⟩

/-- C2: for every configuration and chill factor, when the outdoor temperature
is at least the target temperature the total loss is exactly 0. -/
theorem total_loss_eq_zero_of_warm (config : HouseConfig)
    (ext_temp target_temp chill_factor : ℚ)
    (h : target_temp ≤ ext_temp) :
    total_loss config ext_temp target_temp chill_factor = 0 := by
  unfold total_loss
  apply List.sum_eq_zero
  intro x hx
  rcases List.mem_map.mp hx with ⟨p, _, rfl⟩
  unfold calc_room_loss
  have hmax : max 0 (target_temp - ext_temp) = 0 :=
    max_eq_left (sub_nonpos.mpr h)
  simp [hmax]

/-- Witness for C2 on the configured house at outdoor 25 °C, target 21 °C. -/
theorem total_loss_eq_zero_of_warm_witness :
    (21 : ℚ) ≤ 25 ∧ total_loss houseConfig 25 21 1 = 0 :=
  ⟨by norm_num, total_loss_eq_zero_of_warm houseConfig 25 21 1 (by norm_num)⟩

/-- C9: the total loss is the sum over all configured zones of the per-zone
loss at the same deltaT and chill factor (additivity). -/
theorem total_loss_additivity (config : HouseConfig)
    (ext_temp target_temp chill_factor : ℚ) :
    total_loss config ext_temp target_temp chill_factor =
      (config.rooms.map (fun p =>
        calc_room_loss config p.1 (target_temp - ext_temp) chill_factor)).sum :=
  rfl

/-- C4: on a schedule with the single interval `[T0, T1)` at price P (minor
units), any instant with `T0 ≤ now < T1` resolves to `P / 100`. -/
theorem get_current_rate_single_interval (T0 T1 P now : ℚ)
    (h0 : T0 ≤ now) (h1 : now < T1) :
    get_current_rate [(T0, T1, P)] now = P / 100 := by
  unfold get_current_rate
  rw [if_pos ⟨h0, h1⟩]

/-- Witness for C4: interval `[10, 20)` at price 25, instant 15. -/
theorem get_current_rate_single_interval_witness :
    (10 : ℚ) ≤ 15 ∧ (15 : ℚ) < 20 ∧
      get_current_rate [((10 : ℚ), (20 : ℚ), (25 : ℚ))] 15 = 25 / 100 :=
  ⟨by norm_num, by norm_num,
    get_current_rate_single_interval 10 20 25 15 (by norm_num) (by norm_num)⟩

/-- C5: when no interval of the schedule contains `now` (in particular when
the schedule is empty), the resolver returns the configured standard fallback
tier price 0.3048. -/
theorem get_current_rate_fallback (rates : List (ℚ × ℚ × ℚ)) (now : ℚ)
    (h : ∀ s e p, (s, e, p) ∈ rates → ¬(s ≤ now ∧ now < e)) :
    get_current_rate rates now = 0.3048 := by
  induction rates with
  | nil => rfl
  | cons head rest ih =>
    obtain ⟨s, e, p⟩ := head
    unfold get_current_rate
    rw [if_neg (h s e p (List.mem_cons_self _ _))]
    exact ih fun s e p hm => h s e p (List.mem_cons_of_mem _ hm)

/-- Witness for C5 on the empty schedule. -/
theorem get_current_rate_fallback_witness :
    get_current_rate [] 0 = 0.3048 :=
  get_current_rate_fallback [] 0 (fun s e p hm => by cases hm)

/-- An entry lacking one of the three fields makes the comprehension body
raise. -/
theorem extractEntry_error_of_keys (r : Json) (h : hasEntryKeys r = false) :
    extractEntry r = .error () := by
  cases r with
  | obj fields =>
    cases h1 : fields.lookup "start" with
    | none => simp [extractEntry, Json.index, h1]
    | some s =>
      cases h2 : fields.lookup "end" with
      | none => simp [extractEntry, Json.index, h1, h2]
      | some e =>
        cases h3 : fields.lookup "value_inc_vat" with
        | none => simp [extractEntry, Json.index, h1, h2, h3]
        | some v => simp [hasEntryKeys, h1, h2, h3] at h
  | null => rfl
  | bool b => rfl
  | num q => rfl
  | str s => rfl
  | arr items => rfl

/-- A well-keyed entry extracts successfully. -/
theorem extractEntry_ok_of_keys (r : Json) (h : hasEntryKeys r = true) :
    ∃ t, extractEntry r = .ok t := by
  cases r with
  | obj fields =>
    unfold hasEntryKeys at h
    rw [Bool.and_eq_true, Bool.and_eq_true] at h
    obtain ⟨⟨h1, h2⟩, h3⟩ := h
    obtain ⟨s, hs⟩ := Option.isSome_iff_exists.mp h1
    obtain ⟨e, he⟩ := Option.isSome_iff_exists.mp h2
    obtain ⟨v, hv⟩ := Option.isSome_iff_exists.mp h3
    refine ⟨(s, e, v), ?_⟩
    simp [extractEntry, Json.index, hs, he, hv]
  | null => simp [hasEntryKeys] at h
  | bool b => simp [hasEntryKeys] at h
  | num q => simp [hasEntryKeys] at h
  | str s => simp [hasEntryKeys] at h
  | arr items => simp [hasEntryKeys] at h

/-- One badly-keyed entry anywhere in the list aborts the whole
comprehension. -/
theorem extractEntries_error (items : List Json)
    (h : items.all hasEntryKeys = false) :
    extractEntries items = .error () := by
  induction items with
  | nil => simp [List.all] at h
  | cons r rest ih =>
    unfold extractEntries
    cases hr : hasEntryKeys r with
    | false => rw [extractEntry_error_of_keys r hr]
    | true =>
      have hrest : rest.all hasEntryKeys = false := by
        rw [List.all_cons, hr] at h
        simpa using h
      obtain ⟨t, ht⟩ := extractEntry_ok_of_keys r hr
      rw [ht, ih hrest]

/-- A decoded payload of unexpected shape makes the extraction raise. -/
theorem extractRates_error_of_shape (v : Json) (h : expectedShape v = false) :
    extractRates v = .error () := by
  cases v with
  | obj fields =>
    cases hl : fields.lookup "rates" with
    | none => simp [expectedShape, hl] at h
    | some w =>
      simp only [expectedShape, hl] at h
      simp only [extractRates, hl]
      cases w with
      | arr items => exact extractEntries_error items h
      | null => rfl
      | bool b => rfl
      | num q => rfl
      | str s => rfl
      | obj g => rfl
  | null => rfl
  | bool b => rfl
  | num q => rfl
  | str s => rfl
  | arr items => rfl

/-- C6: `parse_rates_array` is total (no exception escapes the `try/except`),
and every malformed raw input — `None`, text `json.loads` rejects, or decoded
JSON of unexpected shape — yields the empty schedule. -/
theorem parse_rates_array_malformed_empty (raw : RawInput)
    (h : malformedInput raw) : parse_rates_array raw = [] := by
  cases raw with
  | none => rfl
  | badText => rfl
  | parsed v =>
    simp only [parse_rates_array]
    rw [extractRates_error_of_shape v h]

/-- Witness for C6 on the decoded payload `"oops"` (a bare JSON string). -/
theorem parse_rates_array_malformed_empty_witness :
    malformedInput (RawInput.parsed (Json.str "oops")) ∧
      parse_rates_array (RawInput.parsed (Json.str "oops")) = [] :=
  ⟨rfl, parse_rates_array_malformed_empty (RawInput.parsed (Json.str "oops")) rfl⟩

/-- Counterexample to C7: a payload holding one well-formed entry and one
malformed entry parses to the empty schedule — the valid entry is dropped —
although the well-formed entry alone parses to a one-entry schedule. -/
theorem parse_rates_array_mixed_counterexample :
    parse_rates_array
        (RawInput.parsed (Json.obj [("rates", Json.arr [goodEntry, Json.obj []])])) = [] ∧
      parse_rates_array (RawInput.parsed (Json.obj [("rates", Json.arr [goodEntry])])) =
        [(Json.num 0, Json.num 1, Json.num 25)] :=
  ⟨rfl, rfl⟩

/-- C7 (amended): when any entry of the `rates` list is malformed, the whole
schedule is discarded — `parse_rates_array` returns the empty list (falling
back to the standard tier), not the remaining valid entries. -/
theorem parse_rates_array_bad_entry_discards_all (items : List Json)
    (h : items.all hasEntryKeys = false) :
    parse_rates_array (RawInput.parsed (Json.obj [("rates", Json.arr items)])) = [] := by
  have he : extractRates (Json.obj [("rates", Json.arr items)]) =
      extractEntries items := rfl
  simp only [parse_rates_array]
  rw [he, extractEntries_error items h]

/-- Witness for the amended C7: one good entry followed by an empty object. -/
theorem parse_rates_array_bad_entry_discards_all_witness :
    ([goodEntry, Json.obj []].all hasEntryKeys = false) ∧
      parse_rates_array
        (RawInput.parsed (Json.obj [("rates", Json.arr [goodEntry, Json.obj []])])) = [] :=
  ⟨rfl, parse_rates_array_bad_entry_discards_all [goodEntry, Json.obj []] rfl⟩

/-- C3: at wind speeds at most 5 km/h the wind-chill formula is not applied
and the chill factor is exactly 1. -/
theorem chill_factor_eq_one_of_low_wind (ext_temp wind_speed : ℝ)
    (h : wind_speed ≤ 5) : chill_factor ext_temp wind_speed = 1 := by
  unfold chill_factor
  rw [if_neg (not_lt.mpr h)]

/-- Witness for C3 at outdoor 0 °C and wind 3 km/h. -/
theorem chill_factor_eq_one_of_low_wind_witness :
    (3 : ℝ) ≤ 5 ∧ chill_factor 0 3 = 1 :=
  ⟨by norm_num, chill_factor_eq_one_of_low_wind 0 3 (by norm_num)⟩

/-- C10: the chill factor never drops below 1 — the chill delta is clamped to
be non-negative and the divisor is clamped to at least 1, so wind can only
amplify the computed loss. -/
theorem one_le_chill_factor (ext_temp wind_speed : ℝ) :
    1 ≤ chill_factor ext_temp wind_speed := by
  unfold chill_factor
  split
  · exact le_add_of_nonneg_right
      (div_nonneg (le_max_left 0 _) (le_trans zero_le_one (le_max_left 1 _)))
  · exact le_refl 1

/-- C8: hot water is flagged for tonight exactly when the tonight flag is on,
the outdoor temperature strictly exceeds the cold-weather threshold, and the
current hour lies in `[cycle_start_hour, cycle_end_hour)`; with window
`[0, 6)`, temperature 10 over threshold 3 and the flag set, hour 2 gives 1
and hour 7 gives 0. -/
theorem hp_water_night_gate :
    (∀ (hc : Bool) (t th : ℚ) (cs ce hr : ℕ),
        hp_water_night hc t th cs ce hr = 1 ↔
          hc = true ∧ th < t ∧ cs ≤ hr ∧ hr < ce) ∧
      hp_water_night true 10 3 0 6 2 = 1 ∧
      hp_water_night true 10 3 0 6 7 = 0 := by
  refine ⟨?_, by decide, by decide⟩
  intro hc t th cs ce hr
  unfold hp_water_night
  split
  · case isTrue hcond => exact iff_of_true rfl hcond
  · case isFalse hcond => exact iff_of_false (by norm_num) hcond

end QSH
